import Mathlib

/-
Verification of the command-tree construction and reflective argument-binding
engine of the kpi library (src/kpi/command.py), as a shallow embedding.

The mutable MCDR parser-node graph is embedded as a store: a list of node
records indexed by allocation order.  Methods of the host parser nodes
(then, runs, requires, at_min, at_max) become store updates.  Runnable
callbacks are embedded as data (which closure the source installed), together
with an evaluator that mirrors what the closure computes at dispatch time.
Python exceptions become an error type returned through Except.
-/

namespace KPI

/-- A Python numeric subscript value: an int instance or a float instance.
Rationals stand in for the float literals that appear in bound subscripts. -/
inductive PyNum
| i (n : Int)
| f (q : Rat)
deriving DecidableEq

/-- Numeric value of a subscript argument, used for the comparison
args[0] > args[1] in the class subscript validators. -/
def PyNum.toRat : PyNum → Rat
| .i n => (n : Rat)
| .f q => q

/-- The Python classes that appear as (parts of) parameter annotations in the
modeled fragment: builtins, the marker classes of command.py, NoneType and the
host CommandSource class. -/
inductive PyType
| intT | boolT | strT | floatT
| integerT | floatCT | textT | quotT | greedyT | enumT
| noneT | commandSourceT
deriving DecidableEq

/-- A parameter annotation as seen by typing.get_type_hints: a plain class, a
types.GenericAlias (origin class plus a tuple of int-or-None subscripts), or a
types.UnionType whose alternatives are plain classes. -/
inductive Hint
| plain (t : PyType)
| generic (origin : PyType) (args : List (Option PyNum))
| union (ts : List PyType)
deriving DecidableEq

/-- The Python exceptions raised by the modeled code paths. -/
inductive PyError
| typeError (msg : String)
| valueError (msg : String)
| keyError (msg : String)
| nameError (nm : String)
| attributeError (msg : String)
| runtimeError (msg : String)
| indexError
deriving DecidableEq

/-- A runtime value bound in the dispatch context or used as a default. -/
inductive Value
| vint (n : Int)
| vstr (s : String)
| vbool (b : Bool)
deriving DecidableEq

/-- A guard attached through the requires mechanism, kept as data: the two
predicates built by the source (src.is_player, src.is_console), a permission
check, or an opaque caller-supplied predicate. -/
inductive ReqTag
| isPlayer
| isConsole
| hasPerm (lvl : Int)
| custom (id : Nat)
deriving DecidableEq

/-- A runnable callback installed by node.runs, as data.  full fn is the
closure fn(self.owner, src, *(ctx[n] for n in namelist)); defarg fn i is the
closure made by _defarg_wrapper(fn, self, namelist, defs, i).  Both closures
read the namelist list by reference, so evaluation below receives the final
namelist and defs of the binding. -/
inductive Callback
| defarg (fn : Nat) (i : Nat)
| full (fn : Nat)
deriving DecidableEq

/-- The kind of a concrete MCDR parser node, with the bound state set through
at_min and at_max for the numeric kinds. -/
inductive NodeKind
| literal (lits : List String)
| integer (nm : String) (amin amax : Option PyNum)
| floatArg (nm : String) (amin amax : Option PyNum)
| boolean (nm : String)
| enumArg (nm : String)
| text (nm : String)
| quotable (nm : String)
| greedy (nm : String)
deriving DecidableEq, Inhabited

/-- The parameter name an argument node was created with, if any. -/
def kindName : NodeKind → Option String
| .literal _ => none
| .integer nm _ _ => some nm
| .floatArg nm _ _ => some nm
| .boolean nm => some nm
| .enumArg nm => some nm
| .text nm => some nm
| .quotable nm => some nm
| .greedy nm => some nm

/-- One parser node of the host graph: its kind, attached children (ids into
the store, in attachment order), the callback installed by runs (a later runs
overwrites), and the guards appended by requires. -/
structure NodeData where
  kind : NodeKind
  children : List Nat := []
  runsCb : Option Callback := none
  reqs : List ReqTag := []
deriving DecidableEq, Inhabited

/-- The object store standing in for the mutable parser-node graph. -/
abbrev Store := List NodeData

/-- Replace the record at index i by f applied to it; out of range is a no-op. -/
def updAt : Store → Nat → (NodeData → NodeData) → Store
| [], _, _ => []
| x :: xs, 0, f => f x :: xs
| x :: xs, j + 1, f => x :: updAt xs j f

/-- Embeds parent.then(child): append the child id to the parent record. -/
def thenChild (s : Store) (parent child : Nat) : Store :=
  updAt s parent fun nd => { nd with children := nd.children ++ [child] }

/-- Embeds node.runs(cb): install the callback, overwriting any previous one. -/
def setRuns (s : Store) (i : Nat) (cb : Callback) : Store :=
  updAt s i fun nd => { nd with runsCb := some cb }

/-- Embeds node.requires(tag, msg): append the guard to the node. -/
def addReq (s : Store) (i : Nat) (t : ReqTag) : Store :=
  updAt s i fun nd => { nd with reqs := nd.reqs ++ [t] }

/-- Is the subscript argument an int instance (isinstance(x, int))? -/
def pyIsInt : Option PyNum → Bool
| some (.i _) => true
| _ => false

/-- Is the subscript argument a float or int instance? -/
def pyIsNum : Option PyNum → Bool
| some _ => true
| none => false

/-- Embeds Integer.__class_getitem__ (command.py lines 461-477) on the
normalized subscript tuple.  In the single-argument error branch the raise
statement evaluates type(args[i]) where i is unbound in that scope, so the
exception actually raised there is a NameError. -/
def integerGetItem (args : List (Option PyNum)) : Except PyError Hint :=
  if 2 < args.length then
    .error (.valueError "Unexpected subscript argument, expect at most 2")
  else if args.length = 2 then
    let a0 := args.getD 0 none
    let a1 := args.getD 1 none
    if a0 ≠ none ∧ ¬ pyIsInt a0 then
      .error (.typeError "Unexpected type at 1st argument, expect int or None")
    else if ¬ pyIsInt a1 then
      .error (.typeError "Unexpected type at 2nd argument, expect int")
    else if a0 ≠ none ∧ (a0.getD (.i 0)).toRat > (a1.getD (.i 0)).toRat then
      .error (.valueError "Maximum value must greather than minimum value")
    else .ok (.generic .integerT args)
  else if args.length = 0 then
    .error .indexError
  else if ¬ pyIsInt (args.getD 0 none) then
    .error (.nameError "i")
  else .ok (.generic .integerT args)

/-- Embeds Float.__class_getitem__ (command.py lines 479-497).  In the
two-argument branch the guard reads args[i] where i is unbound in that scope,
so every two-argument subscript raises a NameError before any validation. -/
def floatGetItem (args : List (Option PyNum)) : Except PyError Hint :=
  if 2 < args.length then
    .error (.valueError "Unexpected subscript argument, expect at most 2")
  else if args.length = 2 then
    .error (.nameError "i")
  else if args.length = 0 then
    .error .indexError
  else if ¬ pyIsNum (args.getD 0 none) then
    .error (.typeError "Unexpected type, expect float or int")
  else .ok (.generic .floatCT args)

/-- issubclass(t, Enum) over the modeled classes. -/
def isSubEnum : PyType → Bool
| .enumT => true
| _ => false

/-- issubclass(t, bool) over the modeled classes. -/
def isSubBool : PyType → Bool
| .boolT => true
| _ => false

/-- issubclass(t, int): bool and the Integer marker are int subclasses. -/
def isSubInt : PyType → Bool
| .intT | .boolT | .integerT => true
| _ => false

/-- issubclass(t, float): the Float marker is a float subclass. -/
def isSubFloat : PyType → Bool
| .floatT | .floatCT => true
| _ => false

/-- issubclass(t, QuotableText). -/
def isSubQuot : PyType → Bool
| .quotT => true
| _ => false

/-- issubclass(t, GreedyText). -/
def isSubGreedy : PyType → Bool
| .greedyT => true
| _ => false

/-- issubclass(t, (Text, str)): the str subclasses of the model. -/
def isSubTextStr : PyType → Bool
| .strT | .textT | .quotT | .greedyT => true
| _ => false

/-- The closure returned by _get_arg_generator, characterized by the node
kind it constructs and, for the numeric kinds, the bounds it applies. -/
inductive ArgGen
| enumG
| booleanG
| integerG (amin amax : Option PyNum)
| floatG (amin amax : Option PyNum)
| quotableG
| greedyG
| textG
deriving DecidableEq

/-- Apply a generator to a parameter name: build the node the closure builds. -/
def applyGen : ArgGen → String → NodeKind
| .enumG, nm => .enumArg nm
| .booleanG, nm => .boolean nm
| .integerG amin amax, nm => .integer nm amin amax
| .floatG amin amax, nm => .floatArg nm amin amax
| .quotableG, nm => .quotable nm
| .greedyG, nm => .greedy nm
| .textG, nm => .text nm

/-- The bounds the numeric generator branches apply: at_max(ags[1]) only when
len(ags) == 2, at_min(ags[0]) when len(ags) > 0 and ags[0] is not None
(command.py lines 250-267). -/
def boundsOf (ags : List (Option PyNum)) : Option PyNum × Option PyNum :=
  ((if 0 < ags.length ∧ ags.getD 0 none ≠ none then ags.getD 0 none else none),
   (if ags.length = 2 then ags.getD 1 none else none))

/-- Embeds _get_arg_generator (command.py lines 239-274): split the hint into
origin class and subscript arguments, then dispatch on issubclass in source
order (Enum, bool before int, int, float, QuotableText, GreedyText, Text/str).
A union reaching this function makes issubclass raise a TypeError in CPython
because its first argument is not a class. -/
def getArgGenerator (hint : Hint) : Except PyError ArgGen :=
  match hint with
  | .union _ => .error (.typeError "issubclass arg 1 must be a class")
  | h =>
    let typ := match h with
      | .generic o _ => o
      | .plain t => t
      | .union _ => .noneT
    let ags := match h with
      | .generic _ a => a
      | _ => []
    if isSubEnum typ then .ok .enumG
    else if isSubBool typ then .ok .booleanG
    else if isSubInt typ then .ok (.integerG (boundsOf ags).1 (boundsOf ags).2)
    else if isSubFloat typ then .ok (.floatG (boundsOf ags).1 (boundsOf ags).2)
    else if isSubQuot typ then .ok .quotableG
    else if isSubGreedy typ then .ok .greedyG
    else if isSubTextStr typ then .ok .textG
    else .error (.typeError "Unsupported type hint")

/-- Embeds Require.get_require (command.py lines 514-519) on the modeled hint
grammar.  A plain class and a types.UnionType have no __origin__ attribute,
so the first hasattr disjunct short-circuits to None.  A GenericAlias hint
does have __origin__, so the guard goes on to evaluate
is_optional(typ.__origin__); the origin of every GenericAlias in the modeled
grammar is a plain class (Integer, Float), whose __origin__ read inside
is_optional raises AttributeError. -/
def getRequire : Hint → Except PyError (Option String)
| .generic _ _ => .error (.attributeError "type object has no attribute __origin__")
| _ => .ok none

/-- An element of the frontier list named nodes in Node.__new__.  The list is
initialized as [([], self.node)] — a singleton holding a pair — but both
growth branches store bare parser nodes back into it, so later iterations can
meet either shape. -/
inductive FrontEl
| tup (fst : List Nat) (snd : Nat)
| node (id : Nat)
deriving DecidableEq

/-- Embeds the tuple unpacking for _, n in nodes applied to one element: a
pair unpacks to its second component; a bare parser node is not iterable, so
CPython raises a TypeError. -/
def unpackSnd : FrontEl → Except PyError Nat
| .tup _ n => .ok n
| .node _ => .error (.typeError "cannot unpack non-iterable AbstractNode")

/-- The mutable state of the binding loop in Node.__new__: the store, the
frontier list nodes, the accumulated self._entries (ids), and namelist. -/
structure BuildSt where
  store : Store
  frontier : List FrontEl
  entries : List Nat
  namelist : List String
deriving DecidableEq

/-- Embeds the defaulted-boundary pass (command.py lines 331-334): for every
frontier element, unpack it as a pair, install the _defarg_wrapper closure
with node.runs, and append the node to entries.  The list argument is the
frontier being iterated. -/
def attachDefaultsAux (f i : Nat) : List FrontEl → BuildSt → Except PyError BuildSt
| [], st => .ok st
| el :: rest, st =>
  match unpackSnd el with
  | .error e => .error e
  | .ok n =>
    attachDefaultsAux f i rest
      { st with store := setRuns st.store n (.defarg f i), entries := st.entries ++ [n] }

/-- Embeds one alternative of the union branch (command.py lines 345-350):
for every element of the saved frontier copy nodes0, unpack it as a pair m,
allocate g(name), attach it with m.then(n) and append it to the new frontier. -/
def growBranch (nm : String) (g : ArgGen) : List FrontEl → BuildSt → Except PyError BuildSt
| [], st => .ok st
| el :: rest, st =>
  match unpackSnd el with
  | .error e => .error e
  | .ok m =>
    let nid := st.store.length
    growBranch nm g rest
      { st with store := thenChild (st.store ++ [{ kind := applyGen g nm }]) m nid,
                frontier := st.frontier ++ [.node nid] }

/-- Embeds the union branch (command.py lines 338-350): the frontier is saved
as nodes0 and cleared, then every alternative type t replicates nodes0 into
sibling children.  The source guard t is None compares a class object with
None and is always false (NoneType is not None), so it is dead code and every
alternative goes through _get_arg_generator, NoneType raising the unsupported
type error there. -/
def growUnionAux (nm : String) (nodes0 : List FrontEl) : List PyType → BuildSt → Except PyError BuildSt
| [], st => .ok st
| t :: ts, st =>
  match getArgGenerator (.plain t) with
  | .error e => .error e
  | .ok g =>
    match growBranch nm g nodes0 st with
    | .error e => .error e
    | .ok st1 => growUnionAux nm nodes0 ts st1

/-- Embeds the non-union branch (command.py lines 351-356): every frontier
element is unpacked as a pair m, a fresh node g(name) is attached under m, and
the slot is overwritten with the bare fresh node. -/
def growEachAux (nm : String) (g : ArgGen) : List FrontEl → Store → Except PyError (List FrontEl × Store)
| [], s => .ok ([], s)
| el :: rest, s =>
  match unpackSnd el with
  | .error e => .error e
  | .ok m =>
    let nid := s.length
    match growEachAux nm g rest (thenChild (s ++ [{ kind := applyGen g nm }]) m nid) with
    | .error e => .error e
    | .ok (fr, s2) => .ok (.node nid :: fr, s2)

/-- Embeds the per-parameter loop of Node.__new__ (command.py lines 326-356):
duplicate-name check, namelist append, defaulted-boundary pass when
len(defs) + i >= len(args), then the Require.get_require step, then union or
plain growth.  When getRequire returns without raising it returns None for
every hint of the modeled grammar (which has no Require alias), so the
conditional hint replacement at line 337 is the identity here. -/
def bindLoop (f defsLen total : Nat) : List (String × Hint) → Nat → BuildSt → Except PyError BuildSt
| [], _, st => .ok st
| (nm, hint) :: rest, i, st =>
  if st.namelist.contains nm then .error (.keyError nm)
  else
    let st1 : BuildSt := { st with namelist := st.namelist ++ [nm] }
    match (if defsLen + i ≥ total then attachDefaultsAux f i st1.frontier st1 else .ok st1) with
    | .error e => .error e
    | .ok st2 =>
      match getRequire hint with
      | .error e => .error e
      | .ok _ =>
        match hint with
        | .union ts =>
          match growUnionAux nm st2.frontier ts { st2 with frontier := [] } with
          | .error e => .error e
          | .ok st3 => bindLoop f defsLen total rest (i + 1) st3
        | h =>
          match getArgGenerator h with
          | .error e => .error e
          | .ok g =>
            match growEachAux nm g st2.frontier st2.store with
            | .error e => .error e
            | .ok (fr, s) => bindLoop f defsLen total rest (i + 1) { st2 with store := s, frontier := fr }

/-- Embeds the final entry pass (command.py lines 357-360): for every frontier
element not yet in entries, install the full-call closure with runs and append
it.  A leftover pair from the initial frontier passes the membership test (a
tuple never equals a parser node) and then raises an AttributeError, because a
tuple has no runs method. -/
def finishAux (f : Nat) : List FrontEl → BuildSt → Except PyError BuildSt
| [], st => .ok st
| .tup _ _ :: _, _ => .error (.attributeError "tuple object has no attribute runs")
| .node nid :: rest, st =>
  if st.entries.contains nid then finishAux f rest st
  else finishAux f rest { st with store := setRuns st.store nid (.full f), entries := st.entries ++ [nid] }

/-- The handler signature as the reflection step sees it: the annotation of
the first parameter after self, the remaining named parameters with their
annotations, argspec.defaults, and an identifier for the handler function. -/
structure HandlerSig where
  srcHint : Hint
  params : List (String × Hint)
  defaults : List Value
  fn : Nat
deriving DecidableEq

/-- A Requires middleware element: the guard and its at_base flag. -/
structure ReqSpec where
  tag : ReqTag
  atBase : Bool
deriving DecidableEq

/-- The middleware produced by player_only: src.is_player at the base. -/
def playerOnlySpec : ReqSpec := ⟨.isPlayer, true⟩

/-- The middleware produced by console_only: src.is_console at the base. -/
def consoleOnlySpec : ReqSpec := ⟨.isConsole, true⟩

/-- The middleware produced by require_permission(lvl) with an int level:
src.has_permission(lvl) at the base. -/
def requirePermissionSpec (lvl : Int) : ReqSpec := ⟨.hasPerm lvl, true⟩

/-- issubclass(hint, MCDR.CommandSource) on the first-parameter annotation.
For a non-class annotation CPython issubclass itself raises a TypeError, so
every non-capable annotation ends in a TypeError either way; the model reports
the TypeError of the source guard uniformly. -/
def isCommandSourceHint : Hint → Bool
| .plain .commandSourceT => true
| _ => false

/-- Embeds the trim of argspec.defaults (command.py lines 322-324): when the
defaults tuple is longer than the argument list, keep its last len(args)
elements. -/
def trimDefs (defs : List Value) (nargs : Nat) : List Value :=
  if nargs < defs.length then defs.drop (defs.length - nargs) else defs

/-- A bound Node: the store of the grown subtree, the id of the base node,
self._entries, and the data the installed closures read at dispatch time
(final namelist, trimmed defaults, handler id). -/
structure BoundNode where
  store : Store
  base : Nat
  entries : List Nat
  namelist : List String
  defs : List Value
  fn : Nat
deriving DecidableEq

/-- Embeds Node.requires (command.py lines 394-400): with at_base the guard
goes to the base parser node, otherwise to every current entry. -/
def nodeRequiresSt (bn : BoundNode) (tag : ReqTag) (atBase : Bool) : BoundNode :=
  if atBase then { bn with store := addReq bn.store bn.base tag }
  else { bn with store := bn.entries.foldl (fun s e => addReq s e tag) bn.store }

/-- Embeds Requires.trigger on a Node (command.py lines 74-75). -/
def triggerOnNode (spec : ReqSpec) (bn : BoundNode) : BoundNode :=
  nodeRequiresSt bn spec.tag spec.atBase

/-- Embeds the middleware walk of Node.__new__ (command.py lines 370-377):
trigger every chain element, outermost (most recently applied) first. -/
def applyChain (chain : List ReqSpec) (bn : BoundNode) : BoundNode :=
  chain.foldl (fun s spec => triggerOnNode spec s) bn

/-- Embeds the automatic-inference path of the handler decorator returned by
Node.__new__ (command.py lines 307-381) for a Node built with args=None,
arg_wrapper=None, requires=None: check the source-parameter annotation, trim
the defaults, run the per-parameter loop from the initial frontier
[([], self.node)], run the final entry pass, then walk the middleware chain. -/
def bindHandler (baseKind : NodeKind) (chain : List ReqSpec) (sig : HandlerSig) : Except PyError BoundNode :=
  if isCommandSourceHint sig.srcHint then
    let defs := trimDefs sig.defaults sig.params.length
    let st0 : BuildSt := ⟨[{ kind := baseKind }], [.tup [] 0], [], []⟩
    match bindLoop sig.fn defs.length sig.params.length sig.params 0 st0 with
    | .error e => .error e
    | .ok st1 =>
      match finishAux sig.fn st1.frontier st1 with
      | .error e => .error e
      | .ok st2 => .ok (applyChain chain ⟨st2.store, 0, st2.entries, st2.namelist, defs, sig.fn⟩)
  else .error (.typeError "The first argument must be CommandSource")

/-- The dispatch context: values the host parsed, keyed by parameter name. -/
def Ctx := String → Option Value

/-- Python list slicing l[k:] with a possibly negative start. -/
def pyDrop (l : List Value) (k : Int) : List Value :=
  if 0 ≤ k then l.drop k.toNat else l.drop (l.length - k.natAbs)

/-- Evaluate an installed callback at dispatch time: the handler id together
with the positional arguments passed after (self.owner, src).  The full
closure passes ctx[n] for the whole namelist; the _defarg_wrapper closure
passes ctx[n] for namelist[:i] followed by defs[len(defs) + i - len(namelist):],
reading the final namelist because the closure holds the list by reference. -/
def evalCallback (namelist : List String) (defs : List Value) (ctx : Ctx) : Callback → Nat × Option (List Value)
| .full f => (f, namelist.mapM ctx)
| .defarg f i =>
  (f, ((namelist.take i).mapM ctx).map
        (· ++ pyDrop defs ((defs.length : Int) + (i : Int) - (namelist.length : Int))))

/-- The command source capability of the host: participant kind and
permission level. -/
structure CommandSource where
  is_player : Bool
  is_console : Bool
  permLevel : Int
deriving DecidableEq

/-- Evaluate one guard against a source; opaque custom predicates are read
from the environment env. -/
def evalReq (env : Nat → CommandSource → Bool) (src : CommandSource) : ReqTag → Bool
| .isPlayer => src.is_player
| .isConsole => src.is_console
| .hasPerm lvl => lvl ≤ src.permLevel
| .custom id => env id src

/-- Host semantics of a requirement list: every attached guard must pass
before the node admits the invocation. -/
def passesReqs (env : Nat → CommandSource → Bool) (src : CommandSource) (reqs : List ReqTag) : Bool :=
  reqs.all (evalReq env src)

/-- The guard list of node j in a bound Node. -/
def reqsAt (bn : BoundNode) (j : Nat) : List ReqTag :=
  (bn.store.getD j default).reqs

/-- The class-level state of a CommandSet subclass: the instance slot. -/
structure CSClass where
  inst : Option Nat
deriving DecidableEq

/-- Embeds CommandSet.__init_subclass__ (command.py line 154): the instance
slot of a fresh subclass is None. -/
def initSubclassState : CSClass := ⟨none⟩

/-- Embeds CommandSet.__new__ (command.py lines 156-160): a second
construction while the slot is occupied raises RuntimeError; otherwise the new
instance is stored in the slot and returned. -/
def commandSetNew (cls : CSClass) (fresh : Nat) : Except PyError (Nat × CSClass) :=
  match cls.inst with
  | some _ => .error (.runtimeError "You can only have one command set instance")
  | none => .ok (fresh, ⟨some fresh⟩)

/-- A CommandSet viewed as a requirement target: its _node attribute and the
store it lives in.  CommandSet.__init__ assigns self._node only at line 187,
after the member loop (lines 173-186) that triggers middleware chains at line
177, so during that loop the attribute is still unset (modeled as none). -/
structure CommandSetNode where
  nodeAttr : Option Nat
  store : Store
deriving DecidableEq

/-- Embeds the requires method a CommandSet inherits from AbstractNode
(command.py lines 28-31): self.node.requires(requirement, msg), with the
at_base keyword accepted and ignored.  Reading self.node returns self._node,
which raises AttributeError while __init__ has not yet assigned it; once it
is assigned, the guard goes to the base parser node whatever the flag. -/
def commandSetRequires (cs : CommandSetNode) (tag : ReqTag) (_atBase : Bool) :
    Except PyError CommandSetNode :=
  match cs.nodeAttr with
  | none => .error (.attributeError "CommandSet object has no attribute _node")
  | some b => .ok { cs with store := addReq cs.store b tag }

/-- Embeds Requires.trigger on a CommandSet (command.py lines 74-75). -/
def triggerOnCommandSet (spec : ReqSpec) (cs : CommandSetNode) : Except PyError CommandSetNode :=
  commandSetRequires cs spec.tag spec.atBase

/-- The state of a CommandSet when CommandSet.__init__ reaches the member
loop (lines 173-186): _parent is set, _node is not yet assigned. -/
def commandSetDuringInit (store : Store) : CommandSetNode := ⟨none, store⟩

instance {ε α : Type} [DecidableEq ε] [DecidableEq α] : DecidableEq (Except ε α) := fun a b =>
  match a, b with
  | .error e, .error e2 => decidable_of_iff (e = e2) (by simp)
  | .ok x, .ok y => decidable_of_iff (x = y) (by simp)
  | .error _, .ok _ => isFalse (by simp)
  | .ok _, .error _ => isFalse (by simp)

theorem updAt_length (l : Store) (i : Nat) (f : NodeData → NodeData) :
    (updAt l i f).length = l.length := by
  induction l generalizing i with
  | nil => rfl
  | cons x xs ih =>
    cases i with
    | zero => simp [updAt]
    | succ j => simp [updAt, ih]

theorem updAt_getD (l : Store) (i j : Nat) (f : NodeData → NodeData) :
    (updAt l i f).getD j default =
      if i = j ∧ j < l.length then f (l.getD j default) else l.getD j default := by
  induction l generalizing i j with
  | nil => simp [updAt]
  | cons x xs ih =>
    cases i with
    | zero =>
      cases j with
      | zero => simp [updAt]
      | succ k => simp [updAt]
    | succ i2 =>
      cases j with
      | zero => simp [updAt]
      | succ k =>
        simp only [updAt, List.getD_cons_succ, ih i2 k, List.length_cons]
        by_cases h : i2 = k ∧ k < xs.length
        · rw [if_pos h, if_pos ⟨by omega, by omega⟩]
        · rw [if_neg h, if_neg (by omega)]

theorem addReq_length (s : Store) (i : Nat) (t : ReqTag) :
    (addReq s i t).length = s.length := updAt_length s i _

theorem addReq_reqs (s : Store) (i j : Nat) (t : ReqTag) :
    ((addReq s i t).getD j default).reqs =
      if i = j ∧ j < s.length then (s.getD j default).reqs ++ [t]
      else (s.getD j default).reqs := by
  unfold addReq
  rw [updAt_getD]
  split <;> rfl

theorem addReq_mem (s : Store) (i j : Nat) (t x : ReqTag)
    (hx : x ∈ (s.getD j default).reqs) : x ∈ ((addReq s i t).getD j default).reqs := by
  rw [addReq_reqs]
  split
  · exact List.mem_append_left _ hx
  · exact hx

theorem foldl_addReq_length (es : List Nat) (s : Store) (t : ReqTag) :
    (es.foldl (fun a e => addReq a e t) s).length = s.length := by
  induction es generalizing s with
  | nil => rfl
  | cons e rest ih => simp only [List.foldl_cons, ih, addReq_length]

theorem foldl_addReq_reqs (es : List Nat) (s : Store) (t : ReqTag) (j : Nat)
    (hj : j < s.length) :
    ((es.foldl (fun a e => addReq a e t) s).getD j default).reqs =
      (s.getD j default).reqs ++ List.replicate (es.count j) t := by
  induction es generalizing s with
  | nil => simp
  | cons e rest ih =>
    rw [List.foldl_cons, ih _ (by rw [addReq_length]; exact hj), addReq_reqs]
    by_cases he : e = j
    · subst he
      rw [if_pos ⟨rfl, hj⟩]
      have : (e :: rest).count e = rest.count e + 1 := by
        simp [List.count_cons]
      rw [this, List.replicate_succ, List.append_assoc]
      rfl
    · rw [if_neg (by simp [he])]
      have : (e :: rest).count j = rest.count j := by
        simp [List.count_cons, he]
      rw [this]

theorem foldl_addReq_mem (es : List Nat) (s : Store) (t : ReqTag) (j : Nat)
    (hj : j < s.length) (hm : j ∈ es) :
    t ∈ ((es.foldl (fun a e => addReq a e t) s).getD j default).reqs := by
  rw [foldl_addReq_reqs es s t j hj]
  refine List.mem_append_right _ ?_
  rw [List.mem_replicate]
  exact ⟨by simpa using List.count_pos_iff.2 hm |>.ne', rfl⟩

theorem foldl_addReq_mono (es : List Nat) (s : Store) (t : ReqTag) (j : Nat) (x : ReqTag)
    (hx : x ∈ (s.getD j default).reqs) :
    x ∈ ((es.foldl (fun a e => addReq a e t) s).getD j default).reqs := by
  induction es generalizing s with
  | nil => exact hx
  | cons e rest ih => exact ih _ (addReq_mem s e j t x hx)

theorem nodeRequiresSt_base (bn : BoundNode) (t : ReqTag) (b : Bool) :
    (nodeRequiresSt bn t b).base = bn.base := by
  unfold nodeRequiresSt
  split <;> rfl

theorem nodeRequiresSt_entries (bn : BoundNode) (t : ReqTag) (b : Bool) :
    (nodeRequiresSt bn t b).entries = bn.entries := by
  unfold nodeRequiresSt
  split <;> rfl

theorem nodeRequiresSt_length (bn : BoundNode) (t : ReqTag) (b : Bool) :
    (nodeRequiresSt bn t b).store.length = bn.store.length := by
  unfold nodeRequiresSt
  split
  · exact addReq_length _ _ _
  · exact foldl_addReq_length _ _ _

theorem nodeRequiresSt_mono (bn : BoundNode) (t : ReqTag) (b : Bool) (j : Nat) (x : ReqTag)
    (hx : x ∈ reqsAt bn j) : x ∈ reqsAt (nodeRequiresSt bn t b) j := by
  unfold nodeRequiresSt reqsAt at *
  split
  · exact addReq_mem _ _ _ _ _ hx
  · exact foldl_addReq_mono _ _ _ _ _ hx

theorem trigger_attaches_base (bn : BoundNode) (t : ReqTag)
    (hb : bn.base < bn.store.length) : t ∈ reqsAt (nodeRequiresSt bn t true) bn.base := by
  unfold nodeRequiresSt reqsAt
  rw [if_pos rfl]
  rw [addReq_reqs, if_pos ⟨rfl, hb⟩]
  exact List.mem_append_right _ (List.mem_singleton.2 rfl)

theorem trigger_attaches_entry (bn : BoundNode) (t : ReqTag) (e : Nat)
    (he : e ∈ bn.entries) (hl : e < bn.store.length) :
    t ∈ reqsAt (nodeRequiresSt bn t false) e := by
  unfold nodeRequiresSt reqsAt
  simp only [Bool.false_eq_true, if_false]
  exact foldl_addReq_mem _ _ _ _ hl he

theorem applyChain_base (chain : List ReqSpec) (bn : BoundNode) :
    (applyChain chain bn).base = bn.base := by
  induction chain generalizing bn with
  | nil => rfl
  | cons c rest ih =>
    simp only [applyChain, List.foldl_cons] at *
    rw [ih, triggerOnNode, nodeRequiresSt_base]

theorem applyChain_entries (chain : List ReqSpec) (bn : BoundNode) :
    (applyChain chain bn).entries = bn.entries := by
  induction chain generalizing bn with
  | nil => rfl
  | cons c rest ih =>
    simp only [applyChain, List.foldl_cons] at *
    rw [ih, triggerOnNode, nodeRequiresSt_entries]

theorem applyChain_mono (chain : List ReqSpec) (bn : BoundNode) (j : Nat) (x : ReqTag)
    (hx : x ∈ reqsAt bn j) : x ∈ reqsAt (applyChain chain bn) j := by
  induction chain generalizing bn with
  | nil => exact hx
  | cons c rest ih =>
    simp only [applyChain, List.foldl_cons] at *
    exact ih _ (nodeRequiresSt_mono _ _ _ _ _ hx)

theorem applyChain_attaches (chain : List ReqSpec) (bn : BoundNode) (spec : ReqSpec)
    (hmem : spec ∈ chain) (hb : bn.base < bn.store.length)
    (he : ∀ e, e ∈ bn.entries → e < bn.store.length) :
    (spec.atBase = true → spec.tag ∈ reqsAt (applyChain chain bn) bn.base) ∧
    (spec.atBase = false → ∀ e, e ∈ bn.entries → spec.tag ∈ reqsAt (applyChain chain bn) e) := by
  induction chain generalizing bn with
  | nil => exact absurd hmem (List.not_mem_nil spec)
  | cons c rest ih =>
    simp only [applyChain, List.foldl_cons] at *
    rcases List.mem_cons.1 hmem with hc | hrest
    · subst hc
      constructor
      · intro hB
        refine applyChain_mono rest _ _ _ ?_
        have := trigger_attaches_base bn spec.tag hb
        rw [triggerOnNode, hB]
        exact this
      · intro hB e hee
        refine applyChain_mono rest _ _ _ ?_
        have := trigger_attaches_entry bn spec.tag e hee (he e hee)
        rw [triggerOnNode, hB]
        exact this
    · have hb2 : (triggerOnNode c bn).base < (triggerOnNode c bn).store.length := by
        rw [triggerOnNode, nodeRequiresSt_base, nodeRequiresSt_length]
        exact hb
      have he2 : ∀ e, e ∈ (triggerOnNode c bn).entries → e < (triggerOnNode c bn).store.length := by
        intro e hee
        rw [triggerOnNode, nodeRequiresSt_length]
        refine he e ?_
        rw [triggerOnNode, nodeRequiresSt_entries] at hee
        exact hee
      have := ih (triggerOnNode c bn) hrest hb2 he2
      rw [triggerOnNode, nodeRequiresSt_base, nodeRequiresSt_entries] at this
      exact this

theorem kindName_applyGen (g : ArgGen) (s : String) : kindName (applyGen g s) = some s := by
  cases g <;> rfl

/-- C2: binding a handler of shape (self, source, a, b=1, c=2) is claimed to
create runnable terminal entries at every defaulted boundary.  The code
instead crashes: after the first parameter the frontier list holds bare parser
nodes, and the defaulted-boundary pass for b unpacks one of them as a pair,
raising a TypeError; the binding never completes at any depth. -/
theorem c2_trailing_defaults_crash :
    bindHandler (.literal ["cmd"]) []
      ⟨.plain .commandSourceT,
       [("a", .plain .intT), ("b", .plain .intT), ("c", .plain .intT)],
       [.vint 1, .vint 2], 0⟩ =
      .error (.typeError "cannot unpack non-iterable AbstractNode") := by
  rfl

/-- C3: for every CommandSet subclass, the first construction after
__init_subclass__ succeeds and records the instance in the class slot, and
any construction attempt while the slot is occupied raises RuntimeError
instead of returning or reusing an instance. -/
theorem c3_singleton_per_subclass (f : Nat) :
    commandSetNew initSubclassState f = .ok (f, ⟨some f⟩) ∧
    ∀ (j g : Nat),
      commandSetNew ⟨some j⟩ g =
        .error (.runtimeError "You can only have one command set instance") :=
  ⟨rfl, fun _ _ => rfl⟩

/-- C4: the claim says the handler decorator succeeds for any number of
parameters, including zero beyond the source, leaving a non-empty entries
list.  For a handler with zero parameters beyond the source the decorator
instead crashes: the initial frontier pair ([], self.node) survives to the
final entry pass, which calls .runs on the tuple and raises AttributeError,
so no entries are ever recorded. -/
theorem c4_zero_param_crash :
    bindHandler (.literal ["cmd"]) [] ⟨.plain .commandSourceT, [], [], 0⟩ =
      .error (.attributeError "tuple object has no attribute runs") := by
  rfl

/-- C6: Float[min, max] is claimed to construct a bounded float alias like
the integer case.  The two-argument branch of Float.__class_getitem__ reads
args[i] with i unbound, so every two-argument subscript raises NameError; the
parallel Integer guard (which reads args[0]) succeeds on the same input. -/
theorem c6_float_two_arg_nameerror :
    floatGetItem [some (.i 0), some (.i 10)] = .error (.nameError "i") ∧
    integerGetItem [some (.i 0), some (.i 10)] =
      .ok (.generic .integerT [some (.i 0), some (.i 10)]) :=
  ⟨rfl, rfl⟩

/-- C9: if the first parameter after self is not annotated with a
CommandSource-capable class, the handler decorator raises the declaration-time
TypeError before any tree growth, for every base node, middleware chain and
parameter list, and never produces a bound node. -/
theorem c9_source_annotation_check (bk : NodeKind) (chain : List ReqSpec)
    (sig : HandlerSig) (t : PyType) (hsrc : sig.srcHint = .plain t)
    (ht : t ≠ .commandSourceT) :
    bindHandler bk chain sig =
      .error (.typeError "The first argument must be CommandSource") := by
  have h : isCommandSourceHint sig.srcHint = false := by
    rw [hsrc]
    cases t <;> simp_all [isCommandSourceHint]
  unfold bindHandler
  rw [h]
  simp

/-- Witness for C9 at a handler whose source parameter is annotated int. -/
theorem c9_witness :
    bindHandler (.literal ["cmd"]) [] ⟨.plain .intT, [("x", .plain .intT)], [], 0⟩ =
      .error (.typeError "The first argument must be CommandSource") :=
  c9_source_annotation_check _ _ _ .intT rfl (by decide)

/-- C10: the claim says a Requirement triggered against a CommandSet is
attached to its base parser node in all cases, the at_base flag having no
effect.  At the only site that triggers a Requirement on a CommandSet — the
member loop of CommandSet.__init__ — self._node is not yet assigned (that
happens only after the loop), so the inherited requires raises AttributeError
and nothing is ever attached; construction fails.  On a CommandSet whose
_node is assigned, the inherited requires does behave as the claim describes:
the flag is ignored and the guard reaches the base. -/
theorem c10_commandset_trigger_crash (store : Store) (spec : ReqSpec) (b : Nat)
    (b1 b2 : Bool) :
    triggerOnCommandSet spec (commandSetDuringInit store) =
      .error (.attributeError "CommandSet object has no attribute _node") ∧
    commandSetRequires ⟨some b, store⟩ spec.tag b1 =
      commandSetRequires ⟨some b, store⟩ spec.tag b2 ∧
    commandSetRequires ⟨some b, store⟩ spec.tag b1 =
      .ok ⟨some b, addReq store b spec.tag⟩ :=
  ⟨rfl, rfl, rfl⟩

/-- C5: the claim says an Integer[0,10] annotation resolves to a bounded
integer argument node and n=5 reaches the handler.  The subscript itself
constructs, and the generator in isolation would apply exactly the claimed
bounds, but binding the handler crashes first: the hint is a GenericAlias, so
Require.get_require evaluates is_optional(hint.__origin__), reading the
missing __origin__ attribute of the plain class Integer and raising
AttributeError before any argument node is synthesized.  The handler is never
bound at all. -/
theorem c5_integer_binding_crash :
    integerGetItem [some (.i 0), some (.i 10)] =
      .ok (.generic .integerT [some (.i 0), some (.i 10)]) ∧
    getArgGenerator (.generic .integerT [some (.i 0), some (.i 10)]) =
      .ok (.integerG (some (.i 0)) (some (.i 10))) ∧
    bindHandler (.literal ["cmd"]) []
        ⟨.plain .commandSourceT,
         [("n", .generic .integerT [some (.i 0), some (.i 10)])], [], 0⟩ =
      .error (.attributeError "type object has no attribute __origin__") :=
  ⟨rfl, rfl, rfl⟩

/-- The decorator result for a handler (self, source, b: int = 1): the base
itself becomes the first entry, carrying the default-filling callback. -/
def defaultedBind : Except PyError BoundNode :=
  bindHandler (.literal ["cmd"]) []
    ⟨.plain .commandSourceT, [("b", .plain .intT)], [.vint 1], 0⟩

/-- The value of defaultedBind. -/
def defaultedBn : BoundNode :=
  ⟨[⟨.literal ["cmd"], [1], some (.defarg 0 0), []⟩,
    ⟨.integer "b" none none, [], some (.full 0), []⟩],
   0, [0, 1], ["b"], [.vint 1], 0⟩

/-- C7 counterexample: the claim says a Requirement triggered with
at_base=false is attached to every current entry and not to the base.  For a
handler with a defaulted first parameter the base parser node is itself an
entry, so triggering with at_base=false attaches the guard to the base. -/
theorem c7_counterexample :
    defaultedBind = .ok defaultedBn ∧
    defaultedBn.base = 0 ∧
    (0 : Nat) ∈ defaultedBn.entries ∧
    reqsAt (triggerOnNode ⟨.custom 5, false⟩ defaultedBn) 0 = [.custom 5] := by
  refine ⟨rfl, rfl, by decide, rfl⟩

/-- C7 (amended): a Requirement triggered on a Node with at_base=true is
attached to the base parser node only; with at_base=false it is attached to
exactly the current entries, once per occurrence, and to no other node — in
particular it reaches the base exactly when the base is itself an entry,
which happens when the first non-source parameter has a default value. -/
theorem c7_requires_placement (bn : BoundNode) (tag : ReqTag) (j : Nat)
    (hj : j < bn.store.length) :
    reqsAt (nodeRequiresSt bn tag true) j =
      (if bn.base = j then reqsAt bn j ++ [tag] else reqsAt bn j) ∧
    reqsAt (nodeRequiresSt bn tag false) j =
      reqsAt bn j ++ List.replicate (bn.entries.count j) tag := by
  constructor
  · unfold nodeRequiresSt reqsAt
    rw [if_pos rfl, addReq_reqs]
    by_cases hbj : bn.base = j
    · rw [if_pos ⟨hbj, hj⟩, if_pos hbj]
    · rw [if_neg (by simp [hbj]), if_neg hbj]
  · unfold nodeRequiresSt reqsAt
    rw [if_neg (by simp)]
    exact foldl_addReq_reqs _ _ _ _ hj

/-- Witness for C7 at the defaulted-parameter node, checking the guard lands
on the base (an entry, counted once) and on the argument node. -/
theorem c7_witness :
    (reqsAt (nodeRequiresSt defaultedBn (.custom 5) true) 1 =
      (if defaultedBn.base = 1 then reqsAt defaultedBn 1 ++ [.custom 5] else reqsAt defaultedBn 1) ∧
     reqsAt (nodeRequiresSt defaultedBn (.custom 5) false) 1 =
      reqsAt defaultedBn 1 ++ List.replicate (defaultedBn.entries.count 1) (.custom 5)) :=
  c7_requires_placement defaultedBn (.custom 5) 1 (by decide)

/-- C1: for a handler whose single non-source parameter is annotated as a
two-way union of supported plain types, binding produces one argument node
per alternative, both attached as children of the same base node under the
same parameter name, both recorded as entries, and both carrying the
full-call closure of the one bound handler, which receives the context value
of the parameter. -/
theorem c1_union_two_way (t1 t2 : PyType) (nm : String) (f : Nat)
    (g1 g2 : ArgGen) (v : Value)
    (h1 : getArgGenerator (.plain t1) = .ok g1)
    (h2 : getArgGenerator (.plain t2) = .ok g2) :
    bindHandler (.literal ["cmd"]) []
        ⟨.plain .commandSourceT, [(nm, .union [t1, t2])], [], f⟩ =
      .ok ⟨[⟨.literal ["cmd"], [1, 2], none, []⟩,
            ⟨applyGen g1 nm, [], some (.full f), []⟩,
            ⟨applyGen g2 nm, [], some (.full f), []⟩], 0, [1, 2], [nm], [], f⟩ ∧
    kindName (applyGen g1 nm) = some nm ∧
    kindName (applyGen g2 nm) = some nm ∧
    evalCallback [nm] [] (fun s => if s = nm then some v else none) (.full f) =
      (f, some [v]) := by
  refine ⟨?_, kindName_applyGen g1 nm, kindName_applyGen g2 nm, ?_⟩
  · cases t1 <;> cases t2 <;>
      first
      | exact Except.noConfusion h1
      | exact Except.noConfusion h2
      | (injection h1 with hg1; injection h2 with hg2; subst hg1; subst hg2; rfl)
  · simp [evalCallback, List.mapM.loop]

/-- Witness for C1 at the handler (self, source, x: int | str). -/
theorem c1_witness :
    bindHandler (.literal ["cmd"]) []
        ⟨.plain .commandSourceT, [("x", .union [.intT, .strT])], [], 7⟩ =
      .ok ⟨[⟨.literal ["cmd"], [1, 2], none, []⟩,
            ⟨applyGen (.integerG none none) "x", [], some (.full 7), []⟩,
            ⟨applyGen .textG "x", [], some (.full 7), []⟩], 0, [1, 2], ["x"], [], 7⟩ ∧
    kindName (applyGen (.integerG none none) "x") = some "x" ∧
    kindName (applyGen .textG "x") = some "x" ∧
    evalCallback ["x"] [] (fun s => if s = "x" then some (.vint 3) else none) (.full 7) =
      (7, some [.vint 3]) :=
  c1_union_two_way .intT .strT "x" 7 (.integerG none none) .textG (.vint 3) rfl rfl

/-- The signature of a handler (self, source, x: int) used in the stacked
middleware scenario. -/
def oneIntSig : HandlerSig := ⟨.plain .commandSourceT, [("x", .plain .intT)], [], 0⟩

/-- The bound node for oneIntSig under player_only applied after
require_permission(2). -/
def stackedBnPR : BoundNode :=
  ⟨[⟨.literal ["cmd"], [1], none, [.isPlayer, .hasPerm 2]⟩,
    ⟨.integer "x" none none, [], some (.full 0), []⟩], 0, [1], ["x"], [], 0⟩

/-- The bound node for oneIntSig under require_permission(2) applied after
player_only. -/
def stackedBnRP : BoundNode :=
  ⟨[⟨.literal ["cmd"], [1], none, [.hasPerm 2, .isPlayer]⟩,
    ⟨.integer "x" none none, [], some (.full 0), []⟩], 0, [1], ["x"], [], 0⟩

/-- C8: binding a handler wrapped in a stack of Requires middleware walks the
chain end-to-end and attaches every stacked guard: each at_base guard reaches
the base and each non-at_base guard reaches every entry, whatever the chain
and the bound node.  For the concrete stack player_only with
require_permission(2), in either application order, both guards land on the
base of the synthesized node and the invocation passes the base guards
exactly when the source is a player and has permission level at least 2. -/
theorem c8_stacked_middleware (chain : List ReqSpec) (bn : BoundNode)
    (spec : ReqSpec) (env : Nat → CommandSource → Bool) (src : CommandSource)
    (hmem : spec ∈ chain) (hb : bn.base < bn.store.length)
    (he : ∀ e, e ∈ bn.entries → e < bn.store.length) :
    (spec.atBase = true → spec.tag ∈ reqsAt (applyChain chain bn) bn.base) ∧
    (spec.atBase = false → ∀ e, e ∈ bn.entries → spec.tag ∈ reqsAt (applyChain chain bn) e) ∧
    bindHandler (.literal ["cmd"]) [playerOnlySpec, requirePermissionSpec 2] oneIntSig =
      .ok stackedBnPR ∧
    bindHandler (.literal ["cmd"]) [requirePermissionSpec 2, playerOnlySpec] oneIntSig =
      .ok stackedBnRP ∧
    (passesReqs env src (reqsAt stackedBnPR 0) = true ↔
      src.is_player = true ∧ 2 ≤ src.permLevel) ∧
    (passesReqs env src (reqsAt stackedBnRP 0) = true ↔
      src.is_player = true ∧ 2 ≤ src.permLevel) := by
  have hA := applyChain_attaches chain bn spec hmem hb he
  refine ⟨hA.1, hA.2, rfl, rfl, ?_, ?_⟩ <;>
    simp [passesReqs, reqsAt, stackedBnPR, stackedBnRP, evalReq, and_comm]

/-- Witness for C8: a singleton chain of player_only on the stacked node, an
all-true environment and a player source of permission level 3. -/
theorem c8_witness :
    ((playerOnlySpec.atBase = true →
        playerOnlySpec.tag ∈ reqsAt (applyChain [playerOnlySpec] stackedBnPR) stackedBnPR.base) ∧
     (playerOnlySpec.atBase = false →
        ∀ e, e ∈ stackedBnPR.entries →
          playerOnlySpec.tag ∈ reqsAt (applyChain [playerOnlySpec] stackedBnPR) e) ∧
     bindHandler (.literal ["cmd"]) [playerOnlySpec, requirePermissionSpec 2] oneIntSig =
       .ok stackedBnPR ∧
     bindHandler (.literal ["cmd"]) [requirePermissionSpec 2, playerOnlySpec] oneIntSig =
       .ok stackedBnRP ∧
     (passesReqs (fun _ _ => true) ⟨true, false, 3⟩ (reqsAt stackedBnPR 0) = true ↔
       (⟨true, false, 3⟩ : CommandSource).is_player = true ∧
         2 ≤ (⟨true, false, 3⟩ : CommandSource).permLevel) ∧
     (passesReqs (fun _ _ => true) ⟨true, false, 3⟩ (reqsAt stackedBnRP 0) = true ↔
       (⟨true, false, 3⟩ : CommandSource).is_player = true ∧
         2 ≤ (⟨true, false, 3⟩ : CommandSource).permLevel)) :=
  c8_stacked_middleware [playerOnlySpec] stackedBnPR playerOnlySpec
    (fun _ _ => true) ⟨true, false, 3⟩ (by simp) (by decide) (by decide)

end KPI
